import Mathlib

/-!
Shallow embedding of the SafePM vulnerability-gated install/scan workflow.

The repository has two source files: `src/index.js` (an older variant of the
CLI that aborts automatically on vulnerabilities) and an unnamed main module
(`src/unnamed/part_000`) containing the current workflow with scan mode,
interactive prompts and the uninstall path.  The definitions below embed the
main module; external effects (the fetch call, the interactive prompt, the
npm child processes) are modelled as explicit input parameters, and the
observable effects (reports, process-manager invocations, `process.exit`
calls) are collected in trace records.
-/

namespace SafePM

/-- A resolved package reference `{name, version}` as produced by
`extractPkgNames` / `fetchPackageVersions`. -/
structure PackageRef where
  name : String
  version : String
deriving DecidableEq, Repr

/-- One OSV vulnerability record as consumed by the report renderer:
`id`, optional `summary`, and the optional `database_specific.severity`
string (absent `database_specific` or absent `severity` is `none`). -/
structure VulnRecord where
  id : String
  summary : Option String
  severity : Option String
deriving DecidableEq, Repr

/-- One entry of the oracle's `results` array.  The `vulns` field is
optional in the JSON: `none` models an absent field (OSV returns `{}` for a
clean package), `some l` models a present array `l` (possibly empty). -/
structure ResultEntry where
  vulns : Option (List VulnRecord)
deriving DecidableEq, Repr

/-- The parsed JSON body of the oracle response.  The `results` field may be
absent (`none`): `vulnsCheck` itself never checks for it. -/
structure OracleBody where
  results : Option (List ResultEntry)
deriving DecidableEq, Repr

/-- One element of the `queries` array sent to the oracle endpoint. -/
structure Query where
  version : String
  name : String
  ecosystem : String
deriving DecidableEq, Repr

/-- Remove the first occurrence of character `c` from a character list:
this is the semantics of JavaScript `String.prototype.replace` with a
one-character plain-string pattern and an empty replacement. -/
def removeFirst (c : Char) : List Char → List Char
  | [] => []
  | x :: xs => if x = c then xs else x :: removeFirst c xs

/-- JavaScript `s.replace(c, '')` for a single-character string pattern
`c`: removes the first occurrence of `c` anywhere in `s`. -/
def jsReplaceOnce (c : Char) (s : String) : String :=
  ⟨removeFirst c s.data⟩

/-- The version transformation applied by `vulnsCheck` before querying the
oracle: `version.replace('^', '').replace('~', '')`. -/
def stripRange (v : String) : String :=
  jsReplaceOnce '~' (jsReplaceOnce '^' v)

/-- The `queries` array built by `vulnsCheck` from the candidate list. -/
def buildQueries (pkgList : List PackageRef) : List Query :=
  pkgList.map (fun p => ⟨stripRange p.version, p.name, "npm"⟩)

/-- Outcome of the `fetch` call to the oracle endpoint, as seen by
`vulnsCheck`: either the network call throws, or a response arrives with an
`ok` flag (2xx status) and a parse outcome for its body (`none` models
`response.json()` throwing on a malformed body). -/
inductive FetchOutcome where
  | netError : FetchOutcome
  | response (ok : Bool) (parsed : Option OracleBody) : FetchOutcome
deriving DecidableEq, Repr

/-- The `vulnsCheck` function: builds the batched queries, performs the
single fetch (modelled by the `fetch` parameter applied to the queries),
throws on a non-ok status, and returns `none` (JavaScript `null`) whenever
anything in the `try` block throws.  A successfully parsed body is returned
as-is, with no shape validation. -/
def vulnsCheck (fetch : List Query → FetchOutcome) (pkgList : List PackageRef) :
    Option OracleBody :=
  match fetch (buildQueries pkgList) with
  | .netError => none
  | .response ok parsed =>
    if ok then
      match parsed with
      | some body => some body
      | none => none
    else none

example : stripRange "^1.3.0" = "1.3.0" := by decide
example : stripRange "~1.3.0" = "1.3.0" := by decide
example : stripRange "1.0.0-~x" = "1.0.0-x" := by decide
example : vulnsCheck (fun _ => .netError) [] = none := rfl
example : vulnsCheck (fun _ => .response false (some ⟨some []⟩)) [] = none := rfl
example : vulnsCheck (fun _ => .response true (some ⟨none⟩)) [] = some ⟨none⟩ := rfl

/-- One element of the intermediate list built by the report engine:
`vulnResults.results.map((r, i) => ({...r, originalPkg: packagesToCheck[i]}))`.
`originalPkg` is `packagesToCheck[i]`, which in JavaScript is `undefined`
(modelled `none`) when `i` is out of range. -/
structure AttachedEntry where
  vulns : Option (List VulnRecord)
  originalPkg : Option PackageRef
deriving DecidableEq, Repr

/-- The index-attaching map over the oracle results. -/
def attachOriginal (results : List ResultEntry) (pkgs : List PackageRef) :
    List AttachedEntry :=
  results.enum.map (fun p => ⟨p.2.vulns, pkgs[p.1]?⟩)

/-- The engine's `foundVulns` list: `.filter(r => r.vulns)`.  JavaScript
truthiness of the `vulns` field: any present array (including an empty one)
is truthy, an absent field is falsy — hence `Option.isSome`. -/
def foundVulns (results : List ResultEntry) (pkgs : List PackageRef) :
    List AttachedEntry :=
  (attachOriginal results pkgs).filter (fun e => e.vulns.isSome)

/-- JavaScript `a || d` for an optional string `a`: the default `d` is used
when the field is absent or the empty string (both falsy). -/
def jsOr (a : Option String) (d : String) : String :=
  match a with
  | none => d
  | some s => if s = "" then d else s

/-- One line of the rendered per-vulnerability output: severity badge text,
summary text, identifier. -/
structure VulnLine where
  badge : String
  summaryText : String
  vulnId : String
deriving DecidableEq, Repr

/-- The rendered block for one flagged package: header package name
(`v.originalPkg.name` — `none` models the access on an `undefined`
original package) and one line per vulnerability. -/
structure RenderedPackage where
  pkgName : Option String
  lines : List VulnLine
deriving DecidableEq, Repr

/-- Rendering of one `foundVulns` entry, following the `forEach` body:
severity defaults to `"UNKNOWN"`, summary to `"No summary available"`.
Caveat on the `pkgName := none` case: in JavaScript the header access
`v.originalPkg.name` throws a TypeError when `originalPkg` is `undefined`
(a flagged results entry beyond the end of the candidate list), crashing
the run before any prompt or package-manager call; this model instead
carries `none` through.  Theorems about behaviour after the rendering
therefore restrict to responses aligned with the candidate list
(`R.length = C.length`), where every flagged position is in range and the
throwing access is never reached. -/
def renderEntry (e : AttachedEntry) : RenderedPackage :=
  ⟨e.originalPkg.map (fun p => p.name),
   (e.vulns.getD []).map (fun v =>
     ⟨jsOr v.severity "UNKNOWN", jsOr v.summary "No summary available", v.id⟩)⟩

/-- Which interactive prompt (if any) the engine presented. -/
inductive PromptKind where
  | scanPrompt : PromptKind
  | installPrompt : PromptKind
deriving DecidableEq, Repr

/-- The operator's answer to the scan-mode prompt. -/
inductive ScanAction where
  | uninstall : ScanAction
  | ignore : ScanAction
deriving DecidableEq, Repr

/-- The operator's answer to the install-mode prompt. -/
inductive InstallAction where
  | abort : InstallAction
  | ignore : InstallAction
deriving DecidableEq, Repr

/-- Observable outcome of one `processVulnerabilityReport` call.
`apiFailure` is the `spinner.fail` report on a missing/failed oracle
result; `cleanReport` the `spinner.succeed` on no findings; `rendered` the
per-package vulnerability blocks; `prompted` records whether (and which)
interactive prompt was shown; `uninstallCall` the argument list of the
`npm uninstall` invocation, if any (each name is `some` unless the
JavaScript value would be `undefined`); `uninstallFailedMsg` whether the
uninstall failure message was printed; `exitCall` a `process.exit` code, if
one was issued; `retVal` the function's return value (meaningful only when
`exitCall = none`). -/
structure ReportOutcome where
  apiFailure : Bool
  cleanReport : Bool
  rendered : List RenderedPackage
  prompted : Option PromptKind
  uninstallCall : Option (List (Option String))
  uninstallFailedMsg : Bool
  exitCall : Option Nat
  retVal : Bool
deriving DecidableEq, Repr

/-- The outcome of the engine's early `return false` on a missing or
malformed oracle result: the API-failure report, no prompt, no calls. -/
def apiFailureOutcome : ReportOutcome :=
  ⟨true, false, [], none, none, false, none, false⟩

/-- The body of `processVulnerabilityReport` once a `results` array is in
hand: filter, render, and branch on mode and operator choice.  The caveat
on `renderEntry` applies: when a flagged entry lies beyond the candidate
list, the JavaScript throws during the rendering `forEach` and never
reaches the prompt or the calls after it, whereas this model continues;
theorems about the post-rendering behaviour therefore carry an
`R.length = C.length` alignment hypothesis. -/
def reportOnResults (results : List ResultEntry)
    (packagesToCheck : List PackageRef) (isScan : Bool)
    (scanChoice : ScanAction) (installChoice : InstallAction)
    (uninstallExecOk : Bool) : ReportOutcome :=
  let fv := foundVulns results packagesToCheck
  if fv.length > 0 then
    let rendered := fv.map renderEntry
    if isScan then
      match scanChoice with
      | .uninstall =>
        let pkgsToRemove := fv.map (fun e => e.originalPkg.map (fun p => p.name))
        ⟨false, false, rendered, some .scanPrompt, some pkgsToRemove,
         !uninstallExecOk, some 0, true⟩
      | .ignore =>
        ⟨false, false, rendered, some .scanPrompt, none, false, none, true⟩
    else
      match installChoice with
      | .abort =>
        ⟨false, false, rendered, some .installPrompt, none, false, some 1, true⟩
      | .ignore =>
        ⟨false, false, rendered, some .installPrompt, none, false, none, true⟩
  else
    ⟨false, true, [], none, none, false, none, true⟩

/-- The `processVulnerabilityReport` function of the main module.  The
interactive `select` answers are the `scanChoice` / `installChoice`
parameters (consulted only when the corresponding prompt is reached), and
`uninstallExecOk` is the outcome of the `npm uninstall` child process
(`uninstallPackages` catches a failure and only prints a message). -/
def processVulnerabilityReport (vulnResults : Option OracleBody)
    (packagesToCheck : List PackageRef) (isScan : Bool)
    (scanChoice : ScanAction) (installChoice : InstallAction)
    (uninstallExecOk : Bool) : ReportOutcome :=
  match vulnResults with
  | none => apiFailureOutcome
  | some body =>
    match body.results with
    | none => apiFailureOutcome
    | some results =>
      reportOnResults results packagesToCheck isScan scanChoice installChoice
        uninstallExecOk

/-- Observable trace of one run of the `install` command action of the main
module.  `noPackagesFail` is the early `spinner.fail("No packages found...")`
return; `oracleQueried` whether `vulnsCheck` was reached; `report` the
outcome of `processVulnerabilityReport`, when reached; `scanComplete` the
"Scan complete" return of scan mode; `installSpawned` the argument vector of
the spawned npm child (`["install", ...pkgs]`), if the spawn was reached;
`installFailedMsg` whether the close handler printed the FAILED message;
`exitCode` the final process exit status (an explicit `process.exit` code,
or the default `0` — the close handler never sets a nonzero exit code). -/
structure ActionTrace where
  isDefaultInstall : Bool
  packagesToCheck : List PackageRef
  noPackagesFail : Bool
  oracleQueried : Bool
  report : Option ReportOutcome
  scanComplete : Bool
  installSpawned : Option (List String)
  installFailedMsg : Bool
  exitCode : Nat
deriving DecidableEq, Repr

/-- The candidate list the action prepares: the manifest entries
(`extractPkgNames`) when `--scan` is given or no package arguments were
passed, the registry-resolved list (`fetchPackageVersions`) otherwise. -/
def preparedList (pkgs : List String) (scanFlag : Bool)
    (manifest resolved : List PackageRef) : List PackageRef :=
  if scanFlag || pkgs.isEmpty then manifest else resolved

/-- Continuation of the action once the report engine has produced its
outcome `rep`: honour a `process.exit` issued there, return after scan mode,
and otherwise spawn `npm install ...pkgs`, whose close handler prints a
message but never changes the exit status. -/
def reportDispatch (pkgs : List String) (scanFlag : Bool)
    (packagesToCheck : List PackageRef) (rep : ReportOutcome)
    (npmExitCode : Int) : ActionTrace :=
  match rep.exitCall with
  | some c =>
    ⟨pkgs.isEmpty, packagesToCheck, false, true, some rep, false, none, false, c⟩
  | none =>
    if scanFlag then
      ⟨pkgs.isEmpty, packagesToCheck, false, true, some rep, true, none, false, 0⟩
    else
      ⟨pkgs.isEmpty, packagesToCheck, false, true, some rep, false,
       some ("install" :: pkgs), npmExitCode ≠ 0, 0⟩

/-- The tail of the action after the candidate list is prepared: query the
oracle once, run the report engine on its result, and dispatch. -/
def afterPrepare (pkgs : List String) (scanFlag : Bool)
    (packagesToCheck : List PackageRef) (fetch : List Query → FetchOutcome)
    (scanChoice : ScanAction) (installChoice : InstallAction)
    (uninstallExecOk : Bool) (npmExitCode : Int) : ActionTrace :=
  reportDispatch pkgs scanFlag packagesToCheck
    (processVulnerabilityReport (vulnsCheck fetch packagesToCheck)
      packagesToCheck scanFlag scanChoice installChoice uninstallExecOk)
    npmExitCode

/-- The `install` command action of the main module.  External
collaborators are parameters: `manifest` is what `extractPkgNames` returns,
`resolved` what `fetchPackageVersions` returns for `pkgs`, `fetch` the
oracle endpoint, the two choices the operator's prompt answers,
`uninstallExecOk` the `npm uninstall` outcome and `npmExitCode` the close
code of the spawned `npm install` child. -/
def installAction (pkgs : List String) (scanFlag : Bool)
    (manifest resolved : List PackageRef) (fetch : List Query → FetchOutcome)
    (scanChoice : ScanAction) (installChoice : InstallAction)
    (uninstallExecOk : Bool) (npmExitCode : Int) : ActionTrace :=
  let isDefault := pkgs.isEmpty
  let packagesToCheck := preparedList pkgs scanFlag manifest resolved
  if (scanFlag || isDefault) && packagesToCheck.length = 0 then
    ⟨isDefault, packagesToCheck, true, false, none, false, none, false, 0⟩
  else
    afterPrepare pkgs scanFlag packagesToCheck fetch scanChoice installChoice
      uninstallExecOk npmExitCode

/-- Positions of the results array whose `vulns` field is present (possibly
an empty array) — the condition the engine's truthiness filter actually
tests.  Characterized by `mem_presentFlaggedPositions` below. -/
def presentFlaggedPositions : List ResultEntry → List Nat
  | [] => []
  | r :: rest =>
    (if r.vulns.isSome then [0] else []) ++
      (presentFlaggedPositions rest).map (· + 1)

/-- Positions of the results array whose `vulns` field is a non-empty
sequence — the flagged positions as the specification describes them (an
empty sequence counting as clean).  Characterized by
`mem_specFlaggedPositions` below. -/
def specFlaggedPositions : List ResultEntry → List Nat
  | [] => []
  | r :: rest =>
    (match r.vulns with
      | some (_ :: _) => [0]
      | _ => []) ++
      (specFlaggedPositions rest).map (· + 1)

theorem mem_presentFlaggedPositions (results : List ResultEntry) (i : Nat) :
    i ∈ presentFlaggedPositions results ↔
      (results[i]?.bind (fun r => r.vulns)).isSome := by
  induction results generalizing i with
  | nil => simp [presentFlaggedPositions]
  | cons r rest ih =>
    cases i with
    | zero =>
      simp only [presentFlaggedPositions, List.mem_append, List.mem_map,
        List.getElem?_cons_zero, Option.some_bind]
      constructor
      · rintro (h | ⟨j, _, hj⟩)
        · revert h
          by_cases hv : r.vulns.isSome <;> simp [hv]
        · omega
      · intro h
        left
        simp [h]
    | succ j =>
      simp only [presentFlaggedPositions, List.mem_append, List.mem_map,
        List.getElem?_cons_succ]
      rw [← ih j]
      constructor
      · rintro (h | ⟨k, hk, hkj⟩)
        · revert h
          by_cases hv : r.vulns.isSome <;> simp [hv]
        · have hkj2 : k = j := by omega
          exact hkj2 ▸ hk
      · intro h
        right
        exact ⟨j, h, rfl⟩

theorem getElem?_succ_tail {α : Type} (l : List α) (i : Nat) :
    l[i + 1]? = l.tail[i]? := by
  cases l <;> simp

theorem attachOriginal_nil (pkgs : List PackageRef) :
    attachOriginal [] pkgs = [] := rfl

theorem attachOriginal_cons (r : ResultEntry) (results : List ResultEntry)
    (pkgs : List PackageRef) :
    attachOriginal (r :: results) pkgs =
      ⟨r.vulns, pkgs[0]?⟩ :: attachOriginal results pkgs.tail := by
  unfold attachOriginal
  rw [List.enum_cons']
  simp only [List.map_cons, List.map_map]
  refine congrArg (_ :: ·) (List.map_congr_left ?_)
  intro p _
  obtain ⟨i, x⟩ := p
  show (⟨x.vulns, pkgs[i + 1]?⟩ : AttachedEntry) = ⟨x.vulns, pkgs.tail[i]?⟩
  rw [getElem?_succ_tail]

theorem foundVulns_nil (pkgs : List PackageRef) : foundVulns [] pkgs = [] := rfl

theorem foundVulns_cons (r : ResultEntry) (results : List ResultEntry)
    (pkgs : List PackageRef) :
    foundVulns (r :: results) pkgs =
      (if r.vulns.isSome then [(⟨r.vulns, pkgs[0]?⟩ : AttachedEntry)] else []) ++
        foundVulns results pkgs.tail := by
  unfold foundVulns
  rw [attachOriginal_cons, List.filter_cons]
  by_cases h : r.vulns.isSome <;> simp [h]

/-- The names attached to the flagged entries are exactly the candidate
names at the flagged positions — unconditionally, with an out-of-range
position yielding `none` on both sides. -/
theorem foundVulns_names (results : List ResultEntry) (pkgs : List PackageRef) :
    (foundVulns results pkgs).map (fun e => e.originalPkg.map (fun p => p.name)) =
      (presentFlaggedPositions results).map
        (fun i => pkgs[i]?.map (fun p => p.name)) := by
  induction results generalizing pkgs with
  | nil => rfl
  | cons r rest ih =>
    rw [foundVulns_cons]
    show _ = List.map _ ((if r.vulns.isSome then [0] else []) ++
      (presentFlaggedPositions rest).map (· + 1))
    rw [List.map_append, List.map_append, List.map_map]
    by_cases h : r.vulns.isSome
    · simp only [h, if_true, List.map_cons, List.map_nil]
      refine congrArg (_ :: ·) ?_
      rw [ih]
      refine List.map_congr_left ?_
      intro i _
      show pkgs.tail[i]?.map _ = pkgs[i + 1]?.map _
      rw [getElem?_succ_tail]
    · simp only [h, if_false, List.map_nil, List.nil_append]
      rw [ih]
      refine List.map_congr_left ?_
      intro i _
      show pkgs.tail[i]?.map _ = pkgs[i + 1]?.map _
      rw [getElem?_succ_tail]

/-- The flagged list is non-empty as soon as one results entry carries a
present `vulns` field. -/
theorem foundVulns_ne_nil_of_mem (results : List ResultEntry)
    (pkgs : List PackageRef) (r : ResultEntry) (hr : r ∈ results)
    (hv : r.vulns.isSome) : foundVulns results pkgs ≠ [] := by
  induction results generalizing pkgs with
  | nil => cases hr
  | cons x rest ih =>
    rw [foundVulns_cons]
    rcases List.mem_cons.mp hr with h | h
    · subst h
      simp [hv]
    · intro hcontra
      rcases List.append_eq_nil.mp hcontra with ⟨_, h2⟩
      exact ih pkgs.tail h h2

theorem mem_specFlaggedPositions (results : List ResultEntry) (i : Nat) :
    i ∈ specFlaggedPositions results ↔
      ∃ v vs, results[i]?.bind (fun r => r.vulns) = some (v :: vs) := by
  induction results generalizing i with
  | nil => simp [specFlaggedPositions]
  | cons r rest ih =>
    cases i with
    | zero =>
      simp only [specFlaggedPositions, List.mem_append, List.mem_map,
        List.getElem?_cons_zero, Option.some_bind]
      constructor
      · rintro (h | ⟨j, _, hj⟩)
        · revert h
          cases hv : r.vulns with
          | none => simp
          | some vs => cases vs <;> simp
        · omega
      · rintro ⟨v, vs, hv⟩
        left
        rw [hv]
        simp
    | succ j =>
      simp only [specFlaggedPositions, List.mem_append, List.mem_map,
        List.getElem?_cons_succ]
      rw [← ih j]
      constructor
      · rintro (h | ⟨k, hk, hkj⟩)
        · revert h
          cases hv : r.vulns with
          | none => simp
          | some vs => cases vs <;> simp
        · have hkj2 : k = j := by omega
          exact hkj2 ▸ hk
      · intro h
        right
        exact ⟨j, h, rfl⟩

theorem lt_of_mem_presentFlaggedPositions (results : List ResultEntry) (i : Nat)
    (h : i ∈ presentFlaggedPositions results) : i < results.length := by
  have h2 := (mem_presentFlaggedPositions results i).mp h
  by_contra hge
  rw [List.getElem?_eq_none (by omega)] at h2
  simp at h2

theorem flagged_pos_in_range (results : List ResultEntry)
    (pkgs : List PackageRef) (h : results.length = pkgs.length) :
    ∀ i ∈ presentFlaggedPositions results, ∃ p, pkgs[i]? = some p := by
  intro i hi
  have hlt : i < pkgs.length :=
    h ▸ lt_of_mem_presentFlaggedPositions results i hi
  exact ⟨pkgs.get ⟨i, hlt⟩, List.getElem?_eq_some_iff.mpr ⟨hlt, rfl⟩⟩

/-- The attached list is the purely positional zip of the results with the
candidate list: entry `i` pairs `R[i]` with `C[i]?`, with no length check
anywhere. -/
theorem attachOriginal_getElem (results : List ResultEntry)
    (pkgs : List PackageRef) (i : Nat) :
    (attachOriginal results pkgs)[i]? =
      results[i]?.map (fun r => ⟨r.vulns, pkgs[i]?⟩) := by
  induction results generalizing pkgs i with
  | nil => simp [attachOriginal_nil]
  | cons r rest ih =>
    rw [attachOriginal_cons]
    cases i with
    | zero => simp
    | succ j =>
      rw [List.getElem?_cons_succ, List.getElem?_cons_succ, ih,
        getElem?_succ_tail pkgs j]

theorem removeFirst_not_mem (c : Char) (l : List Char) (h : c ∉ l) :
    removeFirst c l = l := by
  induction l with
  | nil => rfl
  | cons x xs ih =>
    unfold removeFirst
    rw [if_neg, ih (fun hm => h (List.mem_cons_of_mem x hm))]
    intro hx
    exact h (hx ▸ List.mem_cons_self x xs)

theorem removeFirst_cons_self (c : Char) (l : List Char) :
    removeFirst c (c :: l) = l := by
  simp [removeFirst]

theorem removeFirst_cons_ne (c x : Char) (l : List Char) (h : x ≠ c) :
    removeFirst c (x :: l) = x :: removeFirst c l := by
  simp only [removeFirst]
  rw [if_neg h]

theorem stripRange_eq (v : String) :
    stripRange v = ⟨removeFirst '~' (removeFirst '^' v.data)⟩ := rfl

/-- A version made of one leading qualifier followed by qualifier-free text
has exactly that qualifier stripped. -/
theorem stripRange_leading (c : Char) (rest : List Char)
    (hc : c = '^' ∨ c = '~') (h1 : '^' ∉ rest) (h2 : '~' ∉ rest) :
    stripRange ⟨c :: rest⟩ = ⟨rest⟩ := by
  rw [stripRange_eq]
  rcases hc with hc | hc <;> subst hc
  · show (⟨removeFirst '~' (removeFirst '^' ('^' :: rest))⟩ : String) = ⟨rest⟩
    rw [removeFirst_cons_self, removeFirst_not_mem '~' rest h2]
  · show (⟨removeFirst '~' (removeFirst '^' ('~' :: rest))⟩ : String) = ⟨rest⟩
    rw [removeFirst_cons_ne '^' '~' rest (by decide),
      removeFirst_not_mem '^' rest h1, removeFirst_cons_self]

/-- A version containing neither qualifier character is left unchanged. -/
theorem stripRange_no_qualifier (v : String) (hv1 : '^' ∉ v.data)
    (hv2 : '~' ∉ v.data) : stripRange v = v := by
  rw [stripRange_eq, removeFirst_not_mem '^' v.data hv1,
    removeFirst_not_mem '~' v.data hv2]

/-- C5, counterexample: a 2xx response whose parsed body lacks the `results`
array is returned as-is by `vulnsCheck`, not turned into `null` — the claim
that the query function returns `null` for every response missing the
`results` array is false. -/
theorem C5_counterexample :
    vulnsCheck (fun _ => .response true (some ⟨none⟩)) [⟨"left-pad", "1.3.0"⟩] =
        some ⟨none⟩ ∧
      (some (⟨none⟩ : OracleBody)) ≠ none :=
  ⟨rfl, Option.some_ne_none _⟩

/-- C5, amended: `vulnsCheck` returns `null` exactly on a network-level
failure, a non-2xx status, or a body-parse failure; a successfully parsed
2xx body is returned unchanged — even when it lacks the `results` array, a
case the Report Engine (not the client) then treats as an oracle failure. -/
theorem C5_oracle_failure_modes (fetch : List Query → FetchOutcome)
    (pkgList C : List PackageRef) (isScan : Bool) (sc : ScanAction)
    (ic : InstallAction) (uOk : Bool) :
    (fetch (buildQueries pkgList) = .netError → vulnsCheck fetch pkgList = none) ∧
    (∀ parsed, fetch (buildQueries pkgList) = .response false parsed →
      vulnsCheck fetch pkgList = none) ∧
    (fetch (buildQueries pkgList) = .response true none →
      vulnsCheck fetch pkgList = none) ∧
    (∀ body, fetch (buildQueries pkgList) = .response true (some body) →
      vulnsCheck fetch pkgList = some body) ∧
    (processVulnerabilityReport (some ⟨none⟩) C isScan sc ic uOk).apiFailure =
      true := by
  refine ⟨?_, ?_, ?_, ?_, ?_⟩
  · intro h
    unfold vulnsCheck
    rw [h]
  · intro parsed h
    unfold vulnsCheck
    rw [h]
    rfl
  · intro h
    unfold vulnsCheck
    rw [h]
    rfl
  · intro body h
    unfold vulnsCheck
    rw [h]
    rfl
  · rfl

theorem C5_oracle_failure_modes_witness :
    vulnsCheck (fun _ => FetchOutcome.netError) [⟨"left-pad", "1.3.0"⟩] = none ∧
    (processVulnerabilityReport (some ⟨none⟩) [] false .ignore .ignore
      true).apiFailure = true := by
  have h := C5_oracle_failure_modes (fun _ => FetchOutcome.netError)
    [⟨"left-pad", "1.3.0"⟩] [] false .ignore .ignore true
  exact ⟨h.1 rfl, h.2.2.2.2⟩

/-- C9, counterexample: for the version string `"1.0.0-~x"` there is no
leading `^`/`~` qualifier, so by the claim the version sent to the oracle
should be unchanged; the code's `replace('~', '')` removes the non-leading
`~` and sends `"1.0.0-x"` instead. -/
theorem C9_counterexample :
    (buildQueries [⟨"pkg", "1.0.0-~x"⟩]).map (fun q => q.version) =
        ["1.0.0-x"] ∧
      ("1.0.0-x" : String) ≠ "1.0.0-~x" := by
  constructor
  · rfl
  · decide

/-- C9, amended: the version sent is the input with the first occurrence of
`^` (anywhere) removed and then the first occurrence of `~` (anywhere)
removed.  In particular, a version consisting of one leading qualifier
followed by qualifier-free text has exactly that leading qualifier
stripped, and a version containing neither character is sent unchanged. -/
theorem C9_leading_qualifier_stripped (name : String) (c : Char)
    (rest : List Char) (v : String) (hc : c = '^' ∨ c = '~')
    (h1 : '^' ∉ rest) (h2 : '~' ∉ rest) (hv1 : '^' ∉ v.data)
    (hv2 : '~' ∉ v.data) :
    (buildQueries [⟨name, ⟨c :: rest⟩⟩]).map (fun q => q.version) = [⟨rest⟩] ∧
    (buildQueries [⟨name, v⟩]).map (fun q => q.version) = [v] := by
  constructor
  · show [stripRange ⟨c :: rest⟩] = [⟨rest⟩]
    rw [stripRange_leading c rest hc h1 h2]
  · show [stripRange v] = [v]
    rw [stripRange_no_qualifier v hv1 hv2]

theorem C9_leading_qualifier_stripped_witness :
    (('^' : Char) = '^' ∨ ('^' : Char) = '~') ∧
    ('^' ∉ ("1.2.3" : String).data ∧ '~' ∉ ("1.2.3" : String).data ∧
      '^' ∉ ("9.9.9" : String).data ∧ '~' ∉ ("9.9.9" : String).data) ∧
    (buildQueries [⟨"p", "^1.2.3"⟩]).map (fun q => q.version) = ["1.2.3"] ∧
    (buildQueries [⟨"p", "9.9.9"⟩]).map (fun q => q.version) = ["9.9.9"] := by
  have h := C9_leading_qualifier_stripped "p" '^' ("1.2.3" : String).data
    "9.9.9" (Or.inl rfl) (by decide) (by decide) (by decide) (by decide)
  exact ⟨Or.inl rfl, ⟨by decide, by decide, by decide, by decide⟩, h.1, h.2⟩

/-- C2, counterexample: an oracle response entry with a present but empty
`vulns` array.  By the claim such a position is clean (the spec-side
flagged-position list is empty), yet the engine's truthiness filter flags
it: the flagged list is non-empty. -/
theorem C2_counterexample :
    specFlaggedPositions [⟨some []⟩] = [] ∧
    foundVulns [⟨some []⟩] [⟨"a", "1.0"⟩] = [⟨some [], some ⟨"a", "1.0"⟩⟩] :=
  ⟨rfl, rfl⟩

/-- C2, amended: for equal-length candidate list and response, the flagged
list consists of exactly the positions whose `vulns` field is present (a
present-but-empty array is also flagged; only an absent field is clean),
and the rendered entry at each flagged position carries the package name
`C[i].name` (every flagged position is within range of `C`). -/
theorem C2_flagged_positions (R : List ResultEntry) (C : List PackageRef)
    (h : R.length = C.length) :
    (foundVulns R C).map (fun e => (renderEntry e).pkgName) =
      (presentFlaggedPositions R).map
        (fun i => C[i]?.map (fun p => p.name)) ∧
    ∀ i ∈ presentFlaggedPositions R, ∃ p, C[i]? = some p := by
  constructor
  · rw [← foundVulns_names]
    rfl
  · exact flagged_pos_in_range R C h

theorem C2_flagged_positions_witness :
    ([(⟨some [⟨"GHSA-1", some "bad", some "HIGH"⟩]⟩ : ResultEntry)].length =
        [(⟨"left-pad", "1.3.0"⟩ : PackageRef)].length) ∧
    (foundVulns [⟨some [⟨"GHSA-1", some "bad", some "HIGH"⟩]⟩]
        [⟨"left-pad", "1.3.0"⟩]).map (fun e => (renderEntry e).pkgName) =
      [some "left-pad"] := by
  have h := C2_flagged_positions [⟨some [⟨"GHSA-1", some "bad", some "HIGH"⟩]⟩]
    [⟨"left-pad", "1.3.0"⟩] rfl
  exact ⟨rfl, h.1⟩

/-- C8, counterexample: a successful oracle response whose `results` array
is shorter than the candidate list (empty, against one candidate).  The
claim requires the mismatch to be treated as an oracle failure; the engine
instead reports no failure and a clean result. -/
theorem C8_counterexample :
    (processVulnerabilityReport (some ⟨some []⟩) [⟨"a", "1.0"⟩] false
        .ignore .ignore true).apiFailure = false ∧
    (processVulnerabilityReport (some ⟨some []⟩) [⟨"a", "1.0"⟩] false
        .ignore .ignore true).cleanReport = true :=
  ⟨rfl, rfl⟩

/-- C8, amended: the engine performs no length validation at all.  Any
parsed body carrying a `results` array — whatever its length — is never
reported as an oracle failure; the results are zipped with the candidate
list purely by position (an out-of-range position yields an undefined
original package), and an empty results array against any candidate list
produces a clean report. -/
theorem C8_no_length_check (R : List ResultEntry) (C : List PackageRef)
    (isScan : Bool) (sc : ScanAction) (ic : InstallAction) (uOk : Bool)
    (i : Nat) :
    (processVulnerabilityReport (some ⟨some R⟩) C isScan sc ic
        uOk).apiFailure = false ∧
    (attachOriginal R C)[i]? = R[i]?.map (fun r => ⟨r.vulns, C[i]?⟩) ∧
    (processVulnerabilityReport (some ⟨some []⟩) C isScan sc ic
        uOk).cleanReport = true := by
  refine ⟨?_, attachOriginal_getElem R C i, rfl⟩
  show (reportOnResults R C isScan sc ic uOk).apiFailure = false
  unfold reportOnResults
  by_cases h : (foundVulns R C).length > 0
  · cases isScan <;> cases sc <;> cases ic <;> simp [h]
  · simp [h]

theorem process_none_eq (C : List PackageRef) (isScan : Bool)
    (sc : ScanAction) (ic : InstallAction) (uOk : Bool) :
    processVulnerabilityReport none C isScan sc ic uOk =
      ⟨true, false, [], none, none, false, none, false⟩ := rfl

theorem process_install_abort (R : List ResultEntry) (C : List PackageRef)
    (sc : ScanAction) (uOk : Bool) (h : foundVulns R C ≠ []) :
    processVulnerabilityReport (some ⟨some R⟩) C false sc .abort uOk =
      ⟨false, false, (foundVulns R C).map renderEntry, some .installPrompt,
       none, false, some 1, true⟩ := by
  have hlen : (foundVulns R C).length > 0 := List.length_pos.mpr h
  show reportOnResults R C false sc .abort uOk = _
  unfold reportOnResults
  simp [hlen]

theorem process_install_ignore (R : List ResultEntry) (C : List PackageRef)
    (sc : ScanAction) (uOk : Bool) :
    (processVulnerabilityReport (some ⟨some R⟩) C false sc .ignore
        uOk).exitCall = none := by
  show (reportOnResults R C false sc .ignore uOk).exitCall = none
  unfold reportOnResults
  by_cases h : (foundVulns R C).length > 0 <;> simp [h]

theorem process_scan_uninstall (R : List ResultEntry) (C : List PackageRef)
    (ic : InstallAction) (uOk : Bool) (h : foundVulns R C ≠ []) :
    processVulnerabilityReport (some ⟨some R⟩) C true .uninstall ic uOk =
      ⟨false, false, (foundVulns R C).map renderEntry, some .scanPrompt,
       some ((foundVulns R C).map (fun e => e.originalPkg.map (fun p => p.name))),
       !uOk, some 0, true⟩ := by
  have hlen : (foundVulns R C).length > 0 := List.length_pos.mpr h
  show reportOnResults R C true .uninstall ic uOk = _
  unfold reportOnResults
  simp [hlen]

theorem installAction_eq_afterPrepare (pkgs : List String) (scanFlag : Bool)
    (manifest resolved : List PackageRef) (fetch : List Query → FetchOutcome)
    (sc : ScanAction) (ic : InstallAction) (uOk : Bool) (npm : Int)
    (h : (scanFlag || pkgs.isEmpty) = true → manifest ≠ []) :
    installAction pkgs scanFlag manifest resolved fetch sc ic uOk npm =
      afterPrepare pkgs scanFlag (preparedList pkgs scanFlag manifest resolved)
        fetch sc ic uOk npm := by
  unfold installAction
  by_cases hb : (scanFlag || pkgs.isEmpty) = true
  · have hp : preparedList pkgs scanFlag manifest resolved = manifest := by
      unfold preparedList
      rw [if_pos hb]
    rw [if_neg (by
      rw [hp, hb]
      simp only [Bool.true_and, decide_eq_true_eq, List.length_eq_zero]
      exact h hb)]
  · rw [if_neg (by
      simp only [Bool.not_eq_true] at hb
      simp [hb])]

/-- C1: in install mode, for every candidate list (any combination of CLI
arguments, manifest and resolved list that reaches the check) and every
successful oracle response containing at least one flagged package (an
entry with a non-empty vulns sequence), if the operator chooses Abort the
process terminates with exit code 1 and the npm install spawn is never
reached. -/
theorem C1_abort_gate (pkgs : List String) (manifest resolved : List PackageRef)
    (fetch : List Query → FetchOutcome) (sc : ScanAction) (uOk : Bool)
    (npm : Int) (R : List ResultEntry) (r : ResultEntry) (v : VulnRecord)
    (vtl : List VulnRecord)
    (hreach : pkgs = [] → manifest ≠ [])
    (hfetch : fetch (buildQueries (preparedList pkgs false manifest resolved)) =
      .response true (some ⟨some R⟩))
    (hr : r ∈ R) (hv : r.vulns = some (v :: vtl)) :
    (installAction pkgs false manifest resolved fetch sc .abort uOk
        npm).exitCode = 1 ∧
    (installAction pkgs false manifest resolved fetch sc .abort uOk
        npm).installSpawned = none := by
  have hre : (false || pkgs.isEmpty) = true → manifest ≠ [] := by
    intro hb
    exact hreach (by simpa using hb)
  rw [installAction_eq_afterPrepare pkgs false manifest resolved fetch sc
    .abort uOk npm hre]
  have hvc : vulnsCheck fetch (preparedList pkgs false manifest resolved) =
      some ⟨some R⟩ := by
    unfold vulnsCheck
    rw [hfetch]
    rfl
  have hfv : foundVulns R (preparedList pkgs false manifest resolved) ≠ [] :=
    foundVulns_ne_nil_of_mem _ _ r hr (by rw [hv]; rfl)
  unfold afterPrepare
  rw [hvc, process_install_abort _ _ sc uOk hfv]
  exact ⟨rfl, rfl⟩

theorem C1_abort_gate_witness :
    ((["left-pad"] : List String) = [] →
      ([] : List PackageRef) ≠ []) ∧
    (installAction ["left-pad"] false [] [⟨"left-pad", "1.3.0"⟩]
        (fun _ => .response true
          (some ⟨some [⟨some [⟨"GHSA-1", some "bad", some "HIGH"⟩]⟩]⟩))
        .ignore .abort true 0).exitCode = 1 ∧
    (installAction ["left-pad"] false [] [⟨"left-pad", "1.3.0"⟩]
        (fun _ => .response true
          (some ⟨some [⟨some [⟨"GHSA-1", some "bad", some "HIGH"⟩]⟩]⟩))
        .ignore .abort true 0).installSpawned = none := by
  have h := C1_abort_gate ["left-pad"] [] [⟨"left-pad", "1.3.0"⟩]
    (fun _ => .response true
      (some ⟨some [⟨some [⟨"GHSA-1", some "bad", some "HIGH"⟩]⟩]⟩))
    .ignore true 0 [⟨some [⟨"GHSA-1", some "bad", some "HIGH"⟩]⟩]
    ⟨some [⟨"GHSA-1", some "bad", some "HIGH"⟩]⟩
    ⟨"GHSA-1", some "bad", some "HIGH"⟩ []
    (fun hcontra => List.noConfusion hcontra) rfl (by simp) rfl
  exact ⟨fun hcontra => List.noConfusion hcontra, h.1, h.2⟩

/-- C4: when the oracle call fails (`vulnsCheck` returns null), the engine
emits the API-failure report with no interactive prompt, and in install
mode the action still proceeds to spawn `npm install ...pkgs` — oracle
failure never blocks installation (fail-open). -/
theorem C4_fail_open (pkgs : List String) (manifest resolved : List PackageRef)
    (fetch : List Query → FetchOutcome) (sc : ScanAction) (ic : InstallAction)
    (uOk : Bool) (npm : Int)
    (hreach : pkgs = [] → manifest ≠ [])
    (hfail : vulnsCheck fetch (preparedList pkgs false manifest resolved) =
      none) :
    (installAction pkgs false manifest resolved fetch sc ic uOk npm).report =
        some apiFailureOutcome ∧
    apiFailureOutcome.prompted = none ∧
    (installAction pkgs false manifest resolved fetch sc ic uOk
        npm).installSpawned = some ("install" :: pkgs) := by
  have hre : (false || pkgs.isEmpty) = true → manifest ≠ [] := by
    intro hb
    exact hreach (by simpa using hb)
  rw [installAction_eq_afterPrepare pkgs false manifest resolved fetch sc
    ic uOk npm hre]
  unfold afterPrepare
  rw [hfail]
  exact ⟨rfl, rfl, rfl⟩

theorem C4_fail_open_witness :
    ((["lodash"] : List String) = [] → ([] : List PackageRef) ≠ []) ∧
    vulnsCheck (fun _ => FetchOutcome.netError)
      (preparedList ["lodash"] false [] [⟨"lodash", "4.17.15"⟩]) = none ∧
    (installAction ["lodash"] false [] [⟨"lodash", "4.17.15"⟩]
        (fun _ => FetchOutcome.netError) .ignore .ignore true
        0).installSpawned = some ["install", "lodash"] := by
  have h := C4_fail_open ["lodash"] [] [⟨"lodash", "4.17.15"⟩]
    (fun _ => FetchOutcome.netError) .ignore .ignore true 0
    (fun hcontra => List.noConfusion hcontra) rfl
  exact ⟨fun hcontra => List.noConfusion hcontra, rfl, h.2.2⟩

/-- C3: in scan mode, when the oracle confirms vulnerabilities (at least one
entry with a non-empty vulns sequence) and the operator chooses Uninstall,
`npm uninstall` is invoked with exactly the names of the flagged packages
(the candidate names at the flagged positions, each a defined name when the
lengths agree), the process exits with status 0, and no `npm install` spawn
is ever issued. -/
theorem C3_scan_uninstall_exact (pkgs : List String)
    (manifest resolved : List PackageRef) (fetch : List Query → FetchOutcome)
    (ic : InstallAction) (uOk : Bool) (npm : Int) (R : List ResultEntry)
    (r : ResultEntry) (v : VulnRecord) (vtl : List VulnRecord)
    (hm : manifest ≠ [])
    (hfetch : fetch (buildQueries manifest) = .response true (some ⟨some R⟩))
    (hr : r ∈ R) (hv : r.vulns = some (v :: vtl))
    (hlen : R.length = manifest.length) :
    (installAction pkgs true manifest resolved fetch .uninstall ic uOk
        npm).report =
      some ⟨false, false, (foundVulns R manifest).map renderEntry,
        some .scanPrompt,
        some ((presentFlaggedPositions R).map
          (fun i => manifest[i]?.map (fun p => p.name))),
        !uOk, some 0, true⟩ ∧
    (∀ i ∈ presentFlaggedPositions R, ∃ p, manifest[i]? = some p) ∧
    (installAction pkgs true manifest resolved fetch .uninstall ic uOk
        npm).exitCode = 0 ∧
    (installAction pkgs true manifest resolved fetch .uninstall ic uOk
        npm).installSpawned = none := by
  have hre : (true || pkgs.isEmpty) = true → manifest ≠ [] := fun _ => hm
  rw [installAction_eq_afterPrepare pkgs true manifest resolved fetch
    .uninstall ic uOk npm hre]
  have hp : preparedList pkgs true manifest resolved = manifest := rfl
  rw [hp]
  have hvc : vulnsCheck fetch manifest = some ⟨some R⟩ := by
    unfold vulnsCheck
    rw [hfetch]
    rfl
  have hfv : foundVulns R manifest ≠ [] :=
    foundVulns_ne_nil_of_mem _ _ r hr (by rw [hv]; rfl)
  unfold afterPrepare
  rw [hvc, process_scan_uninstall _ _ ic uOk hfv, foundVulns_names R manifest]
  exact ⟨rfl, flagged_pos_in_range R manifest hlen, rfl, rfl⟩

theorem C3_scan_uninstall_exact_witness :
    ([(⟨"left-pad", "1.3.0"⟩ : PackageRef)] ≠ []) ∧
    (installAction [] true [⟨"left-pad", "1.3.0"⟩] []
        (fun _ => .response true
          (some ⟨some [⟨some [⟨"GHSA-1", some "bad", some "HIGH"⟩]⟩]⟩))
        .uninstall .ignore true 0).exitCode = 0 ∧
    (installAction [] true [⟨"left-pad", "1.3.0"⟩] []
        (fun _ => .response true
          (some ⟨some [⟨some [⟨"GHSA-1", some "bad", some "HIGH"⟩]⟩]⟩))
        .uninstall .ignore true 0).installSpawned = none := by
  have h := C3_scan_uninstall_exact [] [⟨"left-pad", "1.3.0"⟩] []
    (fun _ => .response true
      (some ⟨some [⟨some [⟨"GHSA-1", some "bad", some "HIGH"⟩]⟩]⟩))
    .ignore true 0 [⟨some [⟨"GHSA-1", some "bad", some "HIGH"⟩]⟩]
    ⟨some [⟨"GHSA-1", some "bad", some "HIGH"⟩]⟩
    ⟨"GHSA-1", some "bad", some "HIGH"⟩ []
    (fun hcontra => List.noConfusion hcontra) rfl (by simp) rfl rfl
  exact ⟨fun hcontra => List.noConfusion hcontra, h.2.2.1, h.2.2.2⟩

/-- C10: in scan mode, when the oracle response is aligned with the
manifest (equal lengths, so every flagged entry carries a defined package
and the rendering completes), the operator chooses Uninstall and the
`npm uninstall` child itself fails, the failure is swallowed — it is
reported only as a message (`uninstallFailedMsg`), the engine still calls
`process.exit(0)`, and the whole process exits with status 0. -/
theorem C10_uninstall_error_swallowed (pkgs : List String)
    (manifest resolved : List PackageRef) (fetch : List Query → FetchOutcome)
    (ic : InstallAction) (npm : Int) (R : List ResultEntry)
    (r : ResultEntry) (v : VulnRecord) (vtl : List VulnRecord)
    (hm : manifest ≠ [])
    (hfetch : fetch (buildQueries manifest) = .response true (some ⟨some R⟩))
    (hr : r ∈ R) (hv : r.vulns = some (v :: vtl))
    (hlen : R.length = manifest.length) :
    (installAction pkgs true manifest resolved fetch .uninstall ic false
        npm).exitCode = 0 ∧
    ((installAction pkgs true manifest resolved fetch .uninstall ic false
        npm).report).map (fun rep => rep.uninstallFailedMsg) = some true ∧
    ((installAction pkgs true manifest resolved fetch .uninstall ic false
        npm).report).map (fun rep => rep.exitCall) = some (some 0) ∧
    (∀ i ∈ presentFlaggedPositions R, ∃ p, manifest[i]? = some p) := by
  have hre : (true || pkgs.isEmpty) = true → manifest ≠ [] := fun _ => hm
  rw [installAction_eq_afterPrepare pkgs true manifest resolved fetch
    .uninstall ic false npm hre]
  have hp : preparedList pkgs true manifest resolved = manifest := rfl
  rw [hp]
  have hvc : vulnsCheck fetch manifest = some ⟨some R⟩ := by
    unfold vulnsCheck
    rw [hfetch]
    rfl
  have hfv : foundVulns R manifest ≠ [] :=
    foundVulns_ne_nil_of_mem _ _ r hr (by rw [hv]; rfl)
  unfold afterPrepare
  rw [hvc, process_scan_uninstall _ _ ic false hfv]
  exact ⟨rfl, rfl, rfl, flagged_pos_in_range R manifest hlen⟩

theorem C10_uninstall_error_swallowed_witness :
    ([(⟨"left-pad", "1.3.0"⟩ : PackageRef)] ≠ []) ∧
    (installAction [] true [⟨"left-pad", "1.3.0"⟩] []
        (fun _ => .response true
          (some ⟨some [⟨some [⟨"GHSA-1", some "bad", some "HIGH"⟩]⟩]⟩))
        .uninstall .ignore false 0).exitCode = 0 ∧
    ((installAction [] true [⟨"left-pad", "1.3.0"⟩] []
        (fun _ => .response true
          (some ⟨some [⟨some [⟨"GHSA-1", some "bad", some "HIGH"⟩]⟩]⟩))
        .uninstall .ignore false 0).report).map
      (fun rep => rep.uninstallFailedMsg) = some true := by
  have h := C10_uninstall_error_swallowed [] [⟨"left-pad", "1.3.0"⟩] []
    (fun _ => .response true
      (some ⟨some [⟨some [⟨"GHSA-1", some "bad", some "HIGH"⟩]⟩]⟩))
    .ignore 0 [⟨some [⟨"GHSA-1", some "bad", some "HIGH"⟩]⟩]
    ⟨some [⟨"GHSA-1", some "bad", some "HIGH"⟩]⟩
    ⟨"GHSA-1", some "bad", some "HIGH"⟩ []
    (fun hcontra => List.noConfusion hcontra) rfl (by simp) rfl rfl
  exact ⟨fun hcontra => List.noConfusion hcontra, h.1, h.2.1⟩

/-- C6, counterexample: a run in which the spawned `npm install` child
exits with the nonzero code 1.  The claim requires process exit code 1,
but the close handler only prints the FAILED message and never sets a
nonzero exit status: the process exits 0. -/
theorem C6_counterexample :
    (installAction ["a"] false [] [⟨"a", "1.0.0"⟩]
        (fun _ => .response true (some ⟨some [⟨none⟩]⟩)) .ignore .ignore true
        1).installFailedMsg = true ∧
    (installAction ["a"] false [] [⟨"a", "1.0.0"⟩]
        (fun _ => .response true (some ⟨some [⟨none⟩]⟩)) .ignore .ignore true
        1).exitCode = 0 :=
  ⟨rfl, rfl⟩

/-- C6, amended: for oracle responses aligned with the candidate list
(equal lengths, so every flagged entry carries a defined package and the
rendering completes), the process exit code is 0 on clean completion and
on operator-approved continuation — and also when the underlying
`npm install` child fails, in which case the failure is reported only as a
message; the exit code is 1 exactly when the operator aborts on confirmed
vulnerabilities. -/
theorem C6_exit_codes (pkgs : List String)
    (manifest resolved : List PackageRef) (fetch : List Query → FetchOutcome)
    (sc : ScanAction) (uOk : Bool) (c : Int) (R : List ResultEntry)
    (hreach : pkgs = [] → manifest ≠ [])
    (hfetch : fetch (buildQueries (preparedList pkgs false manifest resolved)) =
      .response true (some ⟨some R⟩))
    (hlen : R.length = (preparedList pkgs false manifest resolved).length) :
    ((installAction pkgs false manifest resolved fetch sc .ignore uOk
        c).exitCode = 0 ∧
     (installAction pkgs false manifest resolved fetch sc .ignore uOk
        c).installFailedMsg = decide (c ≠ 0)) ∧
    (foundVulns R (preparedList pkgs false manifest resolved) ≠ [] →
      (installAction pkgs false manifest resolved fetch sc .abort uOk
        c).exitCode = 1) ∧
    (∀ i ∈ presentFlaggedPositions R,
      ∃ p, (preparedList pkgs false manifest resolved)[i]? = some p) := by
  have hre : (false || pkgs.isEmpty) = true → manifest ≠ [] := by
    intro hb
    exact hreach (by simpa using hb)
  have hvc : vulnsCheck fetch (preparedList pkgs false manifest resolved) =
      some ⟨some R⟩ := by
    unfold vulnsCheck
    rw [hfetch]
    rfl
  refine ⟨?_, ?_, flagged_pos_in_range R _ hlen⟩
  · rw [installAction_eq_afterPrepare pkgs false manifest resolved fetch sc
      .ignore uOk c hre]
    unfold afterPrepare
    rw [hvc]
    unfold reportDispatch
    rw [process_install_ignore R (preparedList pkgs false manifest resolved)
      sc uOk]
    exact ⟨rfl, rfl⟩
  · intro hfv
    rw [installAction_eq_afterPrepare pkgs false manifest resolved fetch sc
      .abort uOk c hre]
    unfold afterPrepare
    rw [hvc, process_install_abort _ _ sc uOk hfv]
    rfl

theorem C6_exit_codes_witness :
    ((["a"] : List String) = [] → ([] : List PackageRef) ≠ []) ∧
    (installAction ["a"] false [] [⟨"a", "1.0.0"⟩]
        (fun _ => .response true
          (some ⟨some [⟨some [⟨"GHSA-1", none, none⟩]⟩]⟩))
        .ignore .ignore true 7).exitCode = 0 ∧
    (installAction ["a"] false [] [⟨"a", "1.0.0"⟩]
        (fun _ => .response true
          (some ⟨some [⟨some [⟨"GHSA-1", none, none⟩]⟩]⟩))
        .ignore .abort true 7).exitCode = 1 := by
  have h := C6_exit_codes ["a"] [] [⟨"a", "1.0.0"⟩]
    (fun _ => .response true
      (some ⟨some [⟨some [⟨"GHSA-1", none, none⟩]⟩]⟩))
    .ignore true 7 [⟨some [⟨"GHSA-1", none, none⟩]⟩]
    (fun hcontra => List.noConfusion hcontra) rfl rfl
  exact ⟨fun hcontra => List.noConfusion hcontra, h.1.1, h.2.1 (by decide)⟩

/-- C7, counterexample: a default install invocation (no package arguments)
with an empty manifest.  By the claim the report should be clean and
`npm install` should be spawned with no explicit package arguments; the
main module instead fails early with the "No packages found" message,
produces no report at all, and never spawns npm. -/
theorem C7_counterexample :
    (installAction [] false [] [] (fun _ => .netError) .ignore .ignore true
        0).noPackagesFail = true ∧
    (installAction [] false [] [] (fun _ => .netError) .ignore .ignore true
        0).report = none ∧
    (installAction [] false [] [] (fun _ => .netError) .ignore .ignore true
        0).installSpawned = none :=
  ⟨rfl, rfl, rfl⟩

/-- C7, amended: a default install invocation with an empty manifest
terminates early with the "No packages found" failure message: the oracle
is never queried, no report is produced, no `npm install` is spawned, and
the process exits 0. -/
theorem C7_empty_manifest_early_exit (resolved : List PackageRef)
    (fetch : List Query → FetchOutcome) (sc : ScanAction) (ic : InstallAction)
    (uOk : Bool) (npm : Int) :
    (installAction [] false [] resolved fetch sc ic uOk npm).noPackagesFail =
        true ∧
    (installAction [] false [] resolved fetch sc ic uOk npm).oracleQueried =
        false ∧
    (installAction [] false [] resolved fetch sc ic uOk npm).installSpawned =
        none ∧
    (installAction [] false [] resolved fetch sc ic uOk npm).exitCode = 0 :=
  ⟨rfl, rfl, rfl, rfl⟩

end SafePM
